import Mathlib

/-!
# Archloom CRM backend — verification of the specified core

Shallow embedding of the lead-tracking core of the Archloom backend:
the ARC identifier allocator (`src/utils.py`), the role-based access
filter (`src/utils.py`), the customer CRUD handlers
(`src/routers/registration.py`) and the HOLD-reclaim batch job
(`src/routers/cron_job.py`).

Modelling conventions:
* The relational store is a `List CustomerModel`; a SQL `SELECT ... WHERE p`
  is `List.filter p`, `SELECT count(*) WHERE p` is `(List.filter p).length`,
  and `ORDER BY customer_id DESC LIMIT 1` is the maximum of the column
  under the string order (`dbMaxCode`).
* Calendar dates are modelled as integers (ordinal day numbers), so SQL
  `CURRENT_DATE - INTERVAL '12 days'` becomes `today - 12`; the canonical
  `YYYY-MM-DD` serialization used for note dates is modelled by the
  (injective) decimal rendering `dateToStr`.
* Python regular-expression digits are ASCII digits.
* Handlers are pure functions from the caller, the request and the store
  to a result (and, for mutating handlers, the successor store); fallible
  handlers return `Except String`.
* `models.py` declares the persisted column `note : Optional[str]` and no
  `notes` column, while the routers read and write a `customer.notes`
  attribute.  On a store-loaded row that attribute does not exist: reading
  it raises `AttributeError` (caught by the handler's generic `except`,
  surfaced as a 500 after rollback), and assigning it only creates a
  non-mapped transient attribute that a commit never persists.  The
  embedding models the persisted row exactly and models the routers'
  notes branch by these effects.
-/

namespace Archloom

/-- Dates as ordinal day numbers. -/
abbrev ADate := Int

/-- Model of `models.User` (`src/models.py`). -/
structure User where
  id : Option Int
  name : Option String
  email : String
  password_hash : String
  role : String
deriving DecidableEq

/-- Schema `schemas.registration_schema.NoteEntry`: a note as supplied in a request,
with a parsed date. -/
structure NoteEntry where
  date : ADate
  note : String
deriving DecidableEq

/-- Model of `models.CustomerModel` (`src/models.py`): the persisted row.
The table has a scalar `note` column and **no** `notes` column; the
routers' reads and writes of a `customer.notes` attribute therefore never
touch the persisted row (see `update_customer` for the consequences). -/
structure CustomerModel where
  id : Option Int
  customer_id : String
  fullname : String
  mobile : Option String
  email : Option String
  address : String
  reg_date : ADate
  note : Option String
  status : String
  hold_since : Option ADate
  assigned_to : Option Int
deriving DecidableEq

/-! ## Identifier allocator (`src/utils.py`) -/

/-- Function `_format_arc`: `f"ARC{n:03d}"` for `n < 1000`, else `f"ARC{n}"`. -/
def _format_arc (n : Nat) : String :=
  if n < 1000 then "ARC" ++ (if n < 10 then "00" ++ toString n
                             else if n < 100 then "0" ++ toString n
                             else toString n)
  else "ARC" ++ toString n

/-- Numeric value of a list of decimal digit characters. -/
def digitsVal (cs : List Char) : Nat :=
  cs.foldl (fun a c => 10 * a + (c.toNat - '0'.toNat)) 0

/-- Model of `re.match(r"^ARC(\d+)$", code)` followed by `int(...)` on the group:
`some k` when the whole string is `ARC` followed by one or more digits. -/
def matchArc (code : String) : Option Nat :=
  match code.data with
  | 'A' :: 'R' :: 'C' :: rest =>
      if !rest.isEmpty && rest.all (fun c => c.isDigit) then some (digitsVal rest)
      else none
  | _ => none

/-- Lexicographic comparison of strings, character by character: this is
the definition of `<` on `String` (`s.data < t.data`), phrased on the
character lists so that it evaluates. -/
def strLt (s t : String) : Bool := decide (s.data < t.data)

/-- Query `SELECT customer_id ... ORDER BY customer_id DESC LIMIT 1`: the maximum
of the column under the string order, `none` when the table is empty. -/
def dbMaxCode : List String → Option String
  | [] => none
  | s :: rest =>
    match dbMaxCode rest with
    | none => some s
    | some m => some (if strLt s m then m else s)

/-- Body of `_next_customer_id` once the current maximum has been fetched:
`if not max_code: next_n = 1`, otherwise parse and add one, with the parse
falling back to `0` when the pattern does not match. -/
def nextFromMax : Option String → String
  | none => _format_arc 1
  | some code =>
      if code = "" then _format_arc 1
      else _format_arc ((matchArc code).getD 0 + 1)

/-- Function `_next_customer_id`: fetch the maximum stored `customer_id` and compute
its successor code. -/
def _next_customer_id (st : List CustomerModel) : String :=
  nextFromMax (dbMaxCode (st.map (fun c => c.customer_id)))

/-- The allocation loop of claim C1 on the identifier column alone: each
allocated identifier is inserted before the next allocation reads the
current maximum.  The most recently issued identifier is at the head. -/
def allocRun : Nat → List String
  | 0 => []
  | n + 1 => nextFromMax (dbMaxCode (allocRun n)) :: allocRun n

/-- The intended state after `n` allocations: `ARC n`, …, `ARC 1`. -/
def descArcList : Nat → List String
  | 0 => []
  | n + 1 => _format_arc (n + 1) :: descArcList n

/-! ## Python string helpers

`String.toUpper`/`String.trim` from the Lean library are implemented with
iterators that do not reduce in the kernel, so `.strip()` and `.upper()`
are embedded directly on the character list (`ASCII` data, as used by the
routes). -/

/-- Python `str.strip()`. -/
def pyStrip (s : String) : String :=
  ⟨((s.data.dropWhile Char.isWhitespace).reverse.dropWhile Char.isWhitespace).reverse⟩

/-- Python `str.upper()`. -/
def pyUpper (s : String) : String := ⟨s.data.map Char.toUpper⟩

/-- Python `re.sub(r"\D", "", s)`: keep only the digits. -/
def pyDigits (s : String) : String := ⟨s.data.filter Char.isDigit⟩

/-- SQL equality against a nullable integer column: a `NULL` on either
side never matches. -/
def sqlEqOpt (a b : Option Int) : Bool :=
  match a, b with
  | some x, some y => x == y
  | _, _ => false

/-! ## Access filter (`src/utils.py`) -/

/-- Dependency `filter_customers_by_user`: the statement filter returned by the
dependency; admins see the base query unchanged, everyone else only the
rows whose `assigned_to` equals their id. -/
def filter_customers_by_user (current_user : User) (stmt : List CustomerModel) :
    List CustomerModel :=
  if current_user.role ≠ "admin" then
    stmt.filter (fun c => sqlEqOpt c.assigned_to current_user.id)
  else stmt

/-! ## Request schemas (`src/schemas/registration_schema.py`)

The schemas below are the payloads *after* pydantic validation.  The
update schema records, for each field, whether the request set it
(`exclude_unset` semantics): the outer `Option` is presence, the inner
value is what was sent.  Explicit `null`s for columns that are `NOT NULL`
in the table (`fullname`, `address`, `reg_date`, `status`) are rejected by
the store at commit time and are not modelled. -/

structure CustomerCreateSchema where
  fullname : String
  reg_date : ADate
  mobile : Option String := none
  email : Option String := none
  address : String
  notes : List NoteEntry := []
  assigned_to : Option Int := none
deriving DecidableEq

structure CustomerUpdateSchema where
  fullname : Option String := none
  reg_date : Option ADate := none
  mobile : Option (Option String) := none
  email : Option (Option String) := none
  address : Option String := none
  notes : Option (List NoteEntry) := none
  status : Option String := none
  hold_since : Option (Option ADate) := none
  assigned_to : Option (Option Int) := none
deriving DecidableEq

/-! ## Create (`registration.py::create_customer`) -/

/-- Python truthiness of `payload.assigned_to` (`None` and `0` are falsy). -/
def truthyOptInt : Option Int → Bool
  | none => false
  | some v => v != 0

/-- Handler `create_customer`: allocate the next code, resolve the assignee
(admins may pick one, everyone else gets themselves), insert the new
record with status `ACTIVE` and return it together with the new store.
The serialized `notes=[...]` constructor argument has no backing column,
so nothing of it reaches the persisted row; the `note` column keeps its
default `NULL`.  The autoincrement primary key is irrelevant to every
property below and is left `none`. -/
def create_customer (current_user : User) (payload : CustomerCreateSchema)
    (db : List CustomerModel) : CustomerModel × List CustomerModel :=
  let customer_id := _next_customer_id db
  let assigned_to :=
    if current_user.role = "admin" ∧ truthyOptInt payload.assigned_to = true then
      payload.assigned_to
    else current_user.id
  let customer : CustomerModel :=
    { id := none
      customer_id := customer_id
      fullname := payload.fullname
      mobile := payload.mobile
      email := payload.email
      address := payload.address
      reg_date := payload.reg_date
      note := none
      status := "ACTIVE"
      hold_since := none
      assigned_to := assigned_to }
  (customer, db ++ [customer])

/-! ## Partial update (`registration.py::update_customer_partial`) -/

/-- Step 2 of the handler: non-admin callers keep only the fields in the
allow-list `{"notes", "status", "hold_since"}`. -/
def restrictNonAdmin (p : CustomerUpdateSchema) : CustomerUpdateSchema :=
  { notes := p.notes, status := p.status, hold_since := p.hold_since }

/-- Step 3: when the submitted status is `ACTIVE` or `CLOSED`, force
`hold_since` to `NULL` (overwriting any submitted value). -/
def applyStatusRule (p : CustomerUpdateSchema) : CustomerUpdateSchema :=
  match p.status with
  | some s => if s = "ACTIVE" ∨ s = "CLOSED" then { p with hold_since := some none } else p
  | none => p

/-- Step 4: drop `assigned_to` for non-admin callers (already removed by
the allow-list in step 2; the handler repeats the check). -/
def popAssignedTo (current_user : User) (p : CustomerUpdateSchema) : CustomerUpdateSchema :=
  if p.assigned_to.isSome = true ∧ current_user.role ≠ "admin" then
    { p with assigned_to := none }
  else p

/-- Step 5, persisted effect: apply the remaining update data field by
field (the handler's `for key, value in update_data.items():
setattr(...)` — independent assignments to distinct mapped columns,
written as one simultaneous record update).  The `notes` key never
appears here: for an admin its assignment lands on a non-mapped transient
attribute the commit ignores, and for a non-admin the branch raises
before any commit (modelled in `update_customer`). -/
def applyUpdateData (p : CustomerUpdateSchema) (c : CustomerModel) : CustomerModel :=
  { c with
    fullname := p.fullname.getD c.fullname
    reg_date := p.reg_date.getD c.reg_date
    mobile := p.mobile.getD c.mobile
    email := p.email.getD c.email
    address := p.address.getD c.address
    status := p.status.getD c.status
    hold_since := p.hold_since.getD c.hold_since
    assigned_to := p.assigned_to.getD c.assigned_to }

/-- Handler `update_customer_partial` (PATCH `/customer/{customer_id}`): find the
record through the access filter (`one_or_none`), restrict and apply the
update data, and commit the modified row.  When the update data carries a
`notes` key and the caller is not an admin, the append branch evaluates
`getattr(customer, "notes")` on the store-loaded row; no such attribute
or column exists, the `AttributeError` hits the generic `except`, the
session is rolled back (so the earlier `setattr`s are undone) and a 500
is returned with the store unchanged.  Under the store's unique
constraint on `customer_id`, replacing by `customer_id` is exactly the
ORM's update of the fetched row. -/
def update_customer (current_user : User) (customer_id : String)
    (payload : CustomerUpdateSchema) (db : List CustomerModel) :
    Except String (CustomerModel × List CustomerModel) :=
  match (filter_customers_by_user current_user db).filter
      (fun c => c.customer_id == customer_id) with
  | [] => .error "404: Customer not found or access denied"
  | [customer] =>
      let p := if current_user.role ≠ "admin" then restrictNonAdmin payload else payload
      let p := applyStatusRule p
      let p := popAssignedTo current_user p
      if p.notes.isSome = true ∧ current_user.role ≠ "admin" then
        .error "500: Failed to update customer: AttributeError"
      else
        let updated := applyUpdateData p customer
        .ok (updated, db.map (fun c => if c.customer_id == customer_id then updated else c))
  | _ => .error "500: Failed to update customer: multiple rows"

/-! ## Reads (`registration.py`) -/

/-- Descending order on the string column `customer_id` (`ORDER BY
customer_id DESC`). -/
def cmpByCodeDesc (a b : CustomerModel) : Bool := !(strLt a.customer_id b.customer_id)

/-- Descending order on the integer primary key (`ORDER BY id DESC`);
stored rows always carry a key. -/
def cmpByPkDesc (a b : CustomerModel) : Bool := (b.id.getD 0) ≤ (a.id.getD 0)

/-- Handler `get_customers` (GET `/customers`): scoped, ordered by `customer_id`
descending, paginated with `OFFSET`/`LIMIT`. -/
def get_customers (current_user : User) (limit offset : Nat)
    (db : List CustomerModel) : List CustomerModel :=
  (((filter_customers_by_user current_user db).mergeSort cmpByCodeDesc).drop offset).take limit

/-- Model of `re.fullmatch(r"ARC\d+", code)`: same language as the allocator's
anchored pattern. -/
def isArcCode (code : String) : Bool := (matchArc code).isSome

/-- Handler `search_customer_by_id_or_mobile` (GET `/customer/{search_data}`):
exact code match after strip/upper, else exact 10-digit mobile match,
else the empty result. -/
def search_customer_by_id_or_mobile (current_user : User) (search_data : String)
    (db : List CustomerModel) : List CustomerModel :=
  let code := pyUpper (pyStrip search_data)
  let digits := pyDigits search_data
  let stmt := filter_customers_by_user current_user db
  if isArcCode code then
    (stmt.filter (fun c => c.customer_id == code)).mergeSort cmpByPkDesc
  else if digits.length = 10 then
    (stmt.filter (fun c => c.mobile == some digits)).mergeSort cmpByPkDesc
  else []

/-- Handler `find_customer_by_id` (GET `/find/{customer_id}`): scoped exact lookup
with `one_or_none`; zero rows is the indistinguishable
"not found or access denied" failure. -/
def find_customer_by_id (current_user : User) (customer_id : String)
    (db : List CustomerModel) : Except String CustomerModel :=
  let code := pyUpper (pyStrip customer_id)
  match (filter_customers_by_user current_user db).filter
      (fun c => c.customer_id == code) with
  | [] => .error "404: Customer not found or access denied"
  | [c] => .ok c
  | _ => .error "500: Failed to find customer: multiple rows"

/-! ## Reclaim job (`src/routers/cron_job.py::auto_activate`) -/

/-- The SQL predicate `status='HOLD' AND hold_since <= CURRENT_DATE -
INTERVAL '12 days'`; a `NULL` `hold_since` never satisfies it. -/
def reclaimPred (today : ADate) (c : CustomerModel) : Bool :=
  c.status == "HOLD" &&
    (match c.hold_since with
     | some h => decide (h ≤ today - 12)
     | none => false)

/-- Effect of the `UPDATE ... SET status='ACTIVE', hold_since=NULL` on one
row: matching rows are released, all other rows are untouched. -/
def reclaimRow (today : ADate) (c : CustomerModel) : CustomerModel :=
  if reclaimPred today c then { c with status := "ACTIVE", hold_since := none } else c

/-- The batch `UPDATE` run by the cron route, applied across the store. -/
def auto_activate (today : ADate) (db : List CustomerModel) : List CustomerModel :=
  db.map (reclaimRow today)

/-! ## Report (`registration.py::customers_count_and_graph`) -/

/-- Query `SELECT count(*) WHERE p`. -/
def countWhere (p : CustomerModel → Bool) (db : List CustomerModel) : Nat :=
  (db.filter p).length

/-- Row is counted as "newly ACTIVE" on `day` (status `ACTIVE`, registered
that day). -/
def activeOn (day : ADate) (c : CustomerModel) : Bool :=
  c.status == "ACTIVE" && c.reg_date == day

/-- Row is counted as "newly HOLD" on `day` (status `HOLD`, hold started
that day). -/
def onHoldOn (day : ADate) (c : CustomerModel) : Bool :=
  c.status == "HOLD" && c.hold_since == some day

structure GraphSeries where
  dates_x_axis : List ADate
  dates_y_axis : List Nat
deriving DecidableEq

structure GraphData where
  active : GraphSeries
  onHold : GraphSeries
deriving DecidableEq

structure CountAndGraph where
  date : ADate
  total_active_today : Nat
  total_on_hold_today : Nat
  graph : GraphData
deriving DecidableEq

/-- One pass of the `for i in range(30)` loop body: append the day and
both counts to the four growing lists. -/
def graphStep (db : List CustomerModel) (start_day : ADate) (g : GraphData) (i : Nat) :
    GraphData :=
  let day := start_day + (i : Int)
  { active := { dates_x_axis := g.active.dates_x_axis ++ [day]
                dates_y_axis := g.active.dates_y_axis ++ [countWhere (activeOn day) db] }
    onHold := { dates_x_axis := g.onHold.dates_x_axis ++ [day]
                dates_y_axis := g.onHold.dates_y_axis ++ [countWhere (onHoldOn day) db] } }

set_option linter.unusedVariables false in
/-- Handler `customers_count_and_graph` (GET `/customers/count_and_graph`): today's
counts plus a 30-iteration loop from `today - 29` to `today`.  The handler
takes no user argument in the source (only the router-wide authentication
dependency); the authenticated caller is passed here to state
caller-independence. -/
def customers_count_and_graph (current_user : User) (today_date : ADate)
    (db : List CustomerModel) : CountAndGraph :=
  let active_today := countWhere (activeOn today_date) db
  let onhold_today := countWhere (onHoldOn today_date) db
  let start_day := today_date - 29
  let graph := (List.range 30).foldl (graphStep db start_day) ⟨⟨[], []⟩, ⟨[], []⟩⟩
  { date := today_date
    total_active_today := active_today
    total_on_hold_today := onhold_today
    graph := graph }

/-- The report route as a state transition: it only issues `SELECT
count(*)` queries, so the store after the request is the store before. -/
def customers_count_and_graph_route (current_user : User) (today_date : ADate)
    (db : List CustomerModel) : CountAndGraph × List CustomerModel :=
  (customers_count_and_graph current_user today_date db, db)

/-! ## Concrete sample data

A small authenticated population and store used to instantiate the
theorems below at concrete inputs. -/

def empUser : User :=
  { id := some 1, name := some "Emp One", email := "e1@x.io",
    password_hash := "h1", role := "employee" }

def adminUser : User :=
  { id := some 9, name := some "Boss", email := "boss@x.io",
    password_hash := "h9", role := "admin" }

def lead1 : CustomerModel :=
  { id := some 1, customer_id := "ARC001", fullname := "John Doe",
    mobile := some "9876543210", email := some "j@x.io", address := "HQ",
    reg_date := 100, note := none,
    status := "ACTIVE", hold_since := none, assigned_to := some 1 }

def lead2 : CustomerModel :=
  { id := some 2, customer_id := "ARC002", fullname := "Jane Roe",
    mobile := some "9123456780", email := none, address := "Annex",
    reg_date := 95, note := none, status := "HOLD", hold_since := some 95,
    assigned_to := some 2 }

def demoDb : List CustomerModel := [lead1, lead2]

def legacyLead : CustomerModel :=
  { id := some 1, customer_id := "LEGACY-7", fullname := "Old Import",
    mobile := none, email := none, address := "Archive",
    reg_date := 0, note := none, status := "ACTIVE", hold_since := none,
    assigned_to := some 1 }

/-! ### Behaviour of the allocator along the run (claim C1)

The code fetches the maximum stored `customer_id` with a plain string
`ORDER BY`, so the run has to be analyzed against the lexicographic
maximum of the issued codes. -/

set_option maxRecDepth 10000 in
/-- Round-trip of the code format through the parser, on the range the run
visits, together with non-emptiness of every formatted code. -/
theorem matchArc_format : ∀ n, n < 1000 →
    matchArc (_format_arc (n + 1)) = some (n + 1) ∧ _format_arc (n + 1) ≠ "" := by
  decide

set_option maxRecDepth 10000 in
/-- Up to `ARC999`, consecutive codes are lexicographically increasing. -/
theorem format_lt : ∀ n, n < 998 →
    strLt (_format_arc (n + 2)) (_format_arc (n + 1)) = false := by
  decide

/-- Unfolding equation for `dbMaxCode` on a nonempty table. -/
theorem dbMaxCode_cons (s : String) (l : List String) :
    dbMaxCode (s :: l) =
      match dbMaxCode l with
      | none => some s
      | some m => some (if strLt s m then m else s) := rfl

/-- The lexicographic maximum of the first `k` codes (`k ≤ 999`) is the
`k`-th code. -/
theorem dbMaxCode_descArcList : ∀ k, k ≤ 999 →
    dbMaxCode (descArcList k) = if k = 0 then none else some (_format_arc k) := by
  intro k
  induction k with
  | zero => intro _; rfl
  | succ k ih =>
    intro hk
    rw [if_neg (by omega : ¬ (k + 1 = 0))]
    cases k with
    | zero => simp [descArcList, dbMaxCode]
    | succ m =>
      have ih' := ih (by omega)
      rw [if_neg (by omega : ¬ (m + 1 = 0))] at ih'
      have hlt := format_lt m (by omega)
      show dbMaxCode (_format_arc (m + 2) :: descArcList (m + 1)) = some (_format_arc (m + 2))
      rw [dbMaxCode_cons, ih']
      simp [hlt]

/-- For the first 1000 allocations the run follows the intended sequence
`ARC001, …, ARC999, ARC1000`. -/
theorem allocRun_eq_descArcList : ∀ k, k ≤ 1000 → allocRun k = descArcList k := by
  intro k
  induction k with
  | zero => intro _; rfl
  | succ k ih =>
    intro hk
    have ih' := ih (by omega)
    show nextFromMax (dbMaxCode (allocRun k)) :: allocRun k = descArcList (k + 1)
    rw [ih', dbMaxCode_descArcList k (by omega)]
    cases k with
    | zero => rfl
    | succ m =>
      have hp := matchArc_format m (by omega)
      simp [nextFromMax, descArcList, hp.1, hp.2]

/-- Code `ARC1000` is not among the first 999 issued codes. -/
theorem arc1000_not_mem_descArcList : ∀ k, k ≤ 999 → "ARC1000" ∉ descArcList k := by
  intro k
  induction k with
  | zero => intro _; simp [descArcList]
  | succ k ih =>
    intro hk
    have ih' := ih (by omega)
    intro hmem
    rcases List.mem_cons.mp hmem with heq | htail
    · have hp := (matchArc_format k (by omega)).1
      rw [← heq] at hp
      have h1000 : matchArc "ARC1000" = some 1000 := by decide
      rw [h1000] at hp
      have := Option.some.inj hp
      omega
    · exact ih' htail

/-- C1: the spec claims the allocator, applied `n` times from an empty
store, issues `ARC001, ARC002, …` with no duplicate ever; in fact the
1001st allocation re-issues `ARC1000` (the lexicographic maximum of the
stored codes is then `ARC999`), so the identifier `ARC1000` is issued
twice along the run. -/
theorem c1_allocator_reissues_arc1000 :
    (allocRun 1000).head? = some "ARC1000" ∧
    (allocRun 1001).head? = some "ARC1000" ∧
    (allocRun 1001).count "ARC1000" = 2 := by
  have h1000 : allocRun 1000 = descArcList 1000 := allocRun_eq_descArcList 1000 (by omega)
  have hstep : allocRun 1001 = nextFromMax (dbMaxCode (allocRun 1000)) :: allocRun 1000 := rfl
  have hdesc : descArcList 1000 = _format_arc 1000 :: descArcList 999 := rfl
  have hmax999 : dbMaxCode (descArcList 999) = some (_format_arc 999) := by
    have h := dbMaxCode_descArcList 999 (by omega)
    rw [if_neg (by omega : ¬ (999 = 0))] at h
    exact h
  have hmax : dbMaxCode (descArcList 1000) = some (_format_arc 999) := by
    rw [hdesc, dbMaxCode_cons, hmax999]
    have hlt : strLt (_format_arc 1000) (_format_arc 999) = true := by decide
    simp [hlt]
  have hnext : nextFromMax (some (_format_arc 999)) = "ARC1000" := by decide
  have hrun : allocRun 1001 = "ARC1000" :: descArcList 1000 := by
    rw [hstep, h1000, hmax, hnext]
  have harc : _format_arc 1000 = "ARC1000" := by decide
  refine ⟨?_, ?_, ?_⟩
  · rw [h1000, hdesc, harc]; rfl
  · rw [hrun]; rfl
  · rw [hrun, hdesc, harc]
    have hnm : "ARC1000" ∉ descArcList 999 := arc1000_not_mem_descArcList 999 (by omega)
    rw [List.count_cons_self, List.count_cons_self, List.count_eq_zero.mpr hnm]

/-! ## Facts about the access filter -/

/-- A successful `NULL`-strict SQL comparison gives genuine equality on
present values. -/
theorem sqlEqOpt_eq {a b : Option Int} (h : sqlEqOpt a b = true) : a = b ∧ a ≠ none := by
  cases a with
  | none => simp [sqlEqOpt] at h
  | some x =>
    cases b with
    | none => simp [sqlEqOpt] at h
    | some y =>
      simp only [sqlEqOpt, beq_iff_eq] at h
      simp [h]

/-- Membership in a non-admin scoped query forces ownership. -/
theorem mem_scope {u : User} {db : List CustomerModel} {c : CustomerModel}
    (hrole : u.role ≠ "admin") (hmem : c ∈ filter_customers_by_user u db) :
    c ∈ db ∧ c.assigned_to = u.id ∧ c.assigned_to ≠ none := by
  unfold filter_customers_by_user at hmem
  rw [if_pos hrole] at hmem
  have h := List.mem_filter.mp hmem
  exact ⟨h.1, (sqlEqOpt_eq h.2).1, (sqlEqOpt_eq h.2).2⟩

/-- The scoped query only returns stored rows. -/
theorem scope_subset (u : User) (db : List CustomerModel) :
    filter_customers_by_user u db ⊆ db := by
  unfold filter_customers_by_user
  split
  · intro x hx
    exact (List.mem_filter.mp hx).1
  · exact fun _ h => h

/-- For an admin the scoped query is the base query, unchanged. -/
theorem scope_admin {u : User} (hrole : u.role = "admin") (db : List CustomerModel) :
    filter_customers_by_user u db = db := by
  unfold filter_customers_by_user
  rw [if_neg (by simp [hrole])]

/-! ## Inversion of the read and update handlers -/

/-- Rows returned by the paginated list come from the scoped query. -/
theorem mem_of_mem_get_customers {u : User} {limit offset : Nat}
    {db : List CustomerModel} {c : CustomerModel}
    (h : c ∈ get_customers u limit offset db) : c ∈ filter_customers_by_user u db := by
  unfold get_customers at h
  exact List.mem_mergeSort.mp (List.mem_of_mem_drop (List.mem_of_mem_take h))

/-- Rows returned by the search come from the scoped query. -/
theorem mem_of_mem_search {u : User} {sdata : String}
    {db : List CustomerModel} {c : CustomerModel}
    (h : c ∈ search_customer_by_id_or_mobile u sdata db) :
    c ∈ filter_customers_by_user u db := by
  simp only [search_customer_by_id_or_mobile] at h
  split at h
  · exact (List.mem_filter.mp (List.mem_mergeSort.mp h)).1
  · split at h
    · exact (List.mem_filter.mp (List.mem_mergeSort.mp h)).1
    · exact absurd h (List.not_mem_nil c)

/-- A successful find returns a scoped row whose code is the normalized
path parameter. -/
theorem find_ok_inv {u : User} {cid : String} {db : List CustomerModel}
    {c : CustomerModel} (h : find_customer_by_id u cid db = .ok c) :
    c ∈ filter_customers_by_user u db ∧ c.customer_id = pyUpper (pyStrip cid) := by
  simp only [find_customer_by_id] at h
  split at h
  · exact absurd h (by simp)
  · rename_i c0 heq
    have hc : c0 = c := by simpa using h
    subst hc
    have hmem : c0 ∈ (filter_customers_by_user u db).filter
        (fun x => x.customer_id == pyUpper (pyStrip cid)) := by
      rw [heq]
      exact List.mem_singleton_self c0
    have h2 := List.mem_filter.mp hmem
    exact ⟨h2.1, by simpa using h2.2⟩
  · exact absurd h (by simp)

/-- A successful update found its target through the scoped query, applied
the (restricted) update data to it and replaced that row in the store. -/
theorem update_ok_inv {u : User} {cid : String} {p : CustomerUpdateSchema}
    {db db2 : List CustomerModel} {c2 : CustomerModel}
    (h : update_customer u cid p db = .ok (c2, db2)) :
    ∃ c0, c0 ∈ db ∧ c0.customer_id = cid ∧
      c0 ∈ filter_customers_by_user u db ∧
      c2 = applyUpdateData (popAssignedTo u (applyStatusRule
            (if u.role ≠ "admin" then restrictNonAdmin p else p))) c0 ∧
      db2 = db.map (fun x => if x.customer_id == cid then c2 else x) := by
  simp only [update_customer] at h
  split at h
  · exact absurd h (by simp)
  · rename_i c0 heq
    have hmem : c0 ∈ (filter_customers_by_user u db).filter
        (fun x => x.customer_id == cid) := by
      rw [heq]
      exact List.mem_singleton_self c0
    have h2 := List.mem_filter.mp hmem
    split at h
    · rename_i hrole
      rw [if_pos hrole]
      split at h
      · exact absurd h (by simp)
      · have hpair : applyUpdateData (popAssignedTo u (applyStatusRule
            (restrictNonAdmin p))) c0 = c2 ∧
            db.map (fun x => if x.customer_id == cid then
              applyUpdateData (popAssignedTo u (applyStatusRule
                (restrictNonAdmin p))) c0 else x) = db2 := by
          simpa using h
        refine ⟨c0, scope_subset u db h2.1, by simpa using h2.2, h2.1, hpair.1.symm, ?_⟩
        rw [← hpair.2, hpair.1]
    · rename_i hrole
      rw [if_neg hrole]
      split at h
      · exact absurd h (by simp)
      · have hpair : applyUpdateData (popAssignedTo u (applyStatusRule p)) c0 = c2 ∧
            db.map (fun x => if x.customer_id == cid then
              applyUpdateData (popAssignedTo u (applyStatusRule p)) c0 else x) = db2 := by
          simpa using h
        refine ⟨c0, scope_subset u db h2.1, by simpa using h2.2, h2.1, hpair.1.symm, ?_⟩
        rw [← hpair.2, hpair.1]
  · exact absurd h (by simp)

/-! ## Claim C5 — idempotence of the reclaim job -/

/-- Releasing a row is idempotent: once released, the SQL predicate is
false (its status is no longer `HOLD`). -/
theorem reclaimRow_idem (today : ADate) (c : CustomerModel) :
    reclaimRow today (reclaimRow today c) = reclaimRow today c := by
  by_cases h : reclaimPred today c = true
  · have h2 : reclaimPred today { c with status := "ACTIVE", hold_since := none } = false := by
      simp [reclaimPred]
    simp [reclaimRow, h, h2]
  · simp [reclaimRow, h]

/-- C5: running the reclaim batch twice with the same `today` yields the
same store as running it once — the second run changes no record. -/
theorem c5_reclaim_idempotent (today : ADate) (db : List CustomerModel) :
    auto_activate today (auto_activate today db) = auto_activate today db := by
  induction db with
  | nil => rfl
  | cons c rest ih =>
    show reclaimRow today (reclaimRow today c) ::
        auto_activate today (auto_activate today rest)
      = reclaimRow today c :: auto_activate today rest
    rw [reclaimRow_idem, ih]

/-! ## Claim C8 — malformed stored maximum -/

/-- C8: when the stored maximum `customer_id` does not match `^ARC(\d+)$`
(for example `"LEGACY-7"`), the allocator does not fail and returns
`ARC001` (parse falls back to `0`, and `0 + 1` is encoded as `ARC001`). -/
theorem c8_malformed_code_falls_back (db : List CustomerModel) (code : String)
    (hmax : dbMaxCode (db.map (fun c => c.customer_id)) = some code)
    (hbad : matchArc code = none) :
    _next_customer_id db = "ARC001" := by
  unfold _next_customer_id
  rw [hmax]
  show (if code = "" then _format_arc 1
        else _format_arc ((matchArc code).getD 0 + 1)) = "ARC001"
  by_cases hemp : code = ""
  · rw [if_pos hemp]
    decide
  · rw [if_neg hemp, hbad]
    decide

/-- Witness for C8 at the store holding only the code `"LEGACY-7"`. -/
theorem c8_witness : _next_customer_id [legacyLead] = "ARC001" :=
  c8_malformed_code_falls_back [legacyLead] "LEGACY-7" rfl (by decide)

/-! ## Claim C10 — the report is caller-independent and unscoped -/

/-- C10: the report answers identically for any two authenticated callers
(any roles, any ids) on the same store and the same `today`, and its
counts range over the whole store, not over the caller's scoped rows. -/
theorem c10_report_ignores_caller (u1 u2 : User) (today : ADate)
    (db : List CustomerModel) :
    customers_count_and_graph_route u1 today db =
      customers_count_and_graph_route u2 today db ∧
    (customers_count_and_graph u1 today db).total_active_today =
      (db.filter (activeOn today)).length ∧
    (customers_count_and_graph u1 today db).total_on_hold_today =
      (db.filter (onHoldOn today)).length :=
  ⟨rfl, rfl, rfl⟩

/-! ## Claim C2 — non-admin access scoping -/

/-- C2: a non-admin caller's list, search and find operations only ever
return Leads assigned to them; a non-admin update can only reach a Lead
assigned to them; an admin's base query is not restricted at all. -/
theorem c2_non_admin_scoping (u : User) (db db2 : List CustomerModel)
    (limit offset : Nat) (sdata cid ucid : String) (payload : CustomerUpdateSchema)
    (c c2 : CustomerModel) :
    (u.role ≠ "admin" → c ∈ get_customers u limit offset db → c.assigned_to = u.id) ∧
    (u.role ≠ "admin" → c ∈ search_customer_by_id_or_mobile u sdata db →
      c.assigned_to = u.id) ∧
    (u.role ≠ "admin" → find_customer_by_id u cid db = .ok c → c.assigned_to = u.id) ∧
    (u.role ≠ "admin" → update_customer u ucid payload db = .ok (c2, db2) →
      ∃ c0, c0 ∈ db ∧ c0.customer_id = ucid ∧ c0.assigned_to = u.id) ∧
    (u.role = "admin" → filter_customers_by_user u db = db) := by
  refine ⟨?_, ?_, ?_, ?_, ?_⟩
  · intro hrole h
    exact (mem_scope hrole (mem_of_mem_get_customers h)).2.1
  · intro hrole h
    exact (mem_scope hrole (mem_of_mem_search h)).2.1
  · intro hrole h
    exact (mem_scope hrole (find_ok_inv h).1).2.1
  · intro hrole h
    obtain ⟨c0, hmem, hcid, hscope, _, _⟩ := update_ok_inv h
    exact ⟨c0, hmem, hcid, (mem_scope hrole hscope).2.1⟩
  · intro hrole
    exact scope_admin hrole db

/-- Witness for C2: the concrete employee finds their own lead, whose
`assignedTo` is indeed their id. -/
theorem c2_witness : lead1.assigned_to = empUser.id :=
  (c2_non_admin_scoping empUser demoDb [] 100 0 "x" "ARC001" "ARC001" {} lead1 lead1).2.2.1
    (by decide) rfl

/-! ## Projection lemmas for the update pipeline -/

theorem restrictNonAdmin_idem (p : CustomerUpdateSchema) :
    restrictNonAdmin (restrictNonAdmin p) = restrictNonAdmin p := rfl

/-- The role-dependent allow-list step never changes the allow-listed
fields themselves. -/
theorem roleRestrict_keeps (u : User) (p : CustomerUpdateSchema) :
    (if u.role ≠ "admin" then restrictNonAdmin p else p).notes = p.notes ∧
    (if u.role ≠ "admin" then restrictNonAdmin p else p).status = p.status ∧
    (if u.role ≠ "admin" then restrictNonAdmin p else p).hold_since = p.hold_since := by
  split <;> exact ⟨rfl, rfl, rfl⟩

/-- The status rule only ever touches `hold_since`. -/
theorem applyStatusRule_keeps (p : CustomerUpdateSchema) :
    (applyStatusRule p).fullname = p.fullname ∧
    (applyStatusRule p).reg_date = p.reg_date ∧
    (applyStatusRule p).mobile = p.mobile ∧
    (applyStatusRule p).email = p.email ∧
    (applyStatusRule p).address = p.address ∧
    (applyStatusRule p).notes = p.notes ∧
    (applyStatusRule p).status = p.status ∧
    (applyStatusRule p).assigned_to = p.assigned_to := by
  cases hp : p.status with
  | none => simp [applyStatusRule, hp]
  | some s => by_cases h : s = "ACTIVE" ∨ s = "CLOSED" <;> simp [applyStatusRule, hp, h]

/-- Value of `hold_since` after the status rule. -/
theorem applyStatusRule_hold_ac (p : CustomerUpdateSchema) (s : String)
    (hp : p.status = some s) (h : s = "ACTIVE" ∨ s = "CLOSED") :
    (applyStatusRule p).hold_since = some none := by
  simp [applyStatusRule, hp, h]

theorem applyStatusRule_hold_other (p : CustomerUpdateSchema) (s : String)
    (hp : p.status = some s) (h : ¬(s = "ACTIVE" ∨ s = "CLOSED")) :
    (applyStatusRule p).hold_since = p.hold_since := by
  simp [applyStatusRule, hp, h]

theorem applyStatusRule_hold_none (p : CustomerUpdateSchema)
    (hp : p.status = none) : (applyStatusRule p).hold_since = p.hold_since := by
  simp [applyStatusRule, hp]

/-- The assigned-to pop only ever touches `assigned_to`. -/
theorem popAssignedTo_keeps (u : User) (p : CustomerUpdateSchema) :
    (popAssignedTo u p).fullname = p.fullname ∧
    (popAssignedTo u p).reg_date = p.reg_date ∧
    (popAssignedTo u p).mobile = p.mobile ∧
    (popAssignedTo u p).email = p.email ∧
    (popAssignedTo u p).address = p.address ∧
    (popAssignedTo u p).notes = p.notes ∧
    (popAssignedTo u p).status = p.status ∧
    (popAssignedTo u p).hold_since = p.hold_since := by
  unfold popAssignedTo
  split <;> exact ⟨rfl, rfl, rfl, rfl, rfl, rfl, rfl, rfl⟩

theorem popAssignedTo_admin (u : User) (p : CustomerUpdateSchema)
    (hrole : u.role = "admin") : (popAssignedTo u p).assigned_to = p.assigned_to := by
  unfold popAssignedTo
  rw [if_neg (by simp [hrole])]

theorem popAssignedTo_absent (u : User) (p : CustomerUpdateSchema)
    (hp : p.assigned_to = none) : (popAssignedTo u p).assigned_to = none := by
  unfold popAssignedTo
  split
  · rfl
  · exact hp

/-! Field projections of the `setattr` loop (all definitional). -/

theorem applyUpdateData_fullname (p : CustomerUpdateSchema) (c : CustomerModel) :
    (applyUpdateData p c).fullname = p.fullname.getD c.fullname := rfl

theorem applyUpdateData_reg_date (p : CustomerUpdateSchema) (c : CustomerModel) :
    (applyUpdateData p c).reg_date = p.reg_date.getD c.reg_date := rfl

theorem applyUpdateData_mobile (p : CustomerUpdateSchema) (c : CustomerModel) :
    (applyUpdateData p c).mobile = p.mobile.getD c.mobile := rfl

theorem applyUpdateData_email (p : CustomerUpdateSchema) (c : CustomerModel) :
    (applyUpdateData p c).email = p.email.getD c.email := rfl

theorem applyUpdateData_address (p : CustomerUpdateSchema) (c : CustomerModel) :
    (applyUpdateData p c).address = p.address.getD c.address := rfl

theorem applyUpdateData_status (p : CustomerUpdateSchema) (c : CustomerModel) :
    (applyUpdateData p c).status = p.status.getD c.status := rfl

theorem applyUpdateData_hold (p : CustomerUpdateSchema) (c : CustomerModel) :
    (applyUpdateData p c).hold_since = p.hold_since.getD c.hold_since := rfl

theorem applyUpdateData_assigned (p : CustomerUpdateSchema) (c : CustomerModel) :
    (applyUpdateData p c).assigned_to = p.assigned_to.getD c.assigned_to := rfl

theorem applyUpdateData_customer_id (p : CustomerUpdateSchema) (c : CustomerModel) :
    (applyUpdateData p c).customer_id = c.customer_id := rfl

/-! ## Claim C3 — the `holdSince ↔ HOLD` invariant -/

/-- An update request that sets the status to `HOLD` without supplying a
`holdSince`. -/
def holdOnlyPayload : CustomerUpdateSchema := { status := some "HOLD" }

/-- Counterexample for C3: updating an `ACTIVE` lead (whose `holdSince` is
none) to `HOLD` without a `holdSince` succeeds and leaves `holdSince`
none, so `status = HOLD` holds while `holdSince ≠ none` fails. -/
theorem c3_counterexample :
    (update_customer empUser "ARC001" holdOnlyPayload demoDb).toOption.map
        (fun r => (r.1.status, r.1.hold_since)) = some ("HOLD", (none : Option ADate)) := rfl

/-- C3 (amended): the invariant `holdSince ≠ none ↔ status = HOLD` holds
after every create; it holds after an update provided the update supplies
a status among the three lifecycle values and, when that status is
`HOLD`, also supplies a non-none `holdSince` (the handler auto-clears
`holdSince` on `ACTIVE`/`CLOSED`, but never auto-populates it on
`HOLD`). -/
theorem c3_hold_invariant (u : User) (cp : CustomerCreateSchema)
    (db db2 : List CustomerModel) (cid : String) (p : CustomerUpdateSchema)
    (s : String) (c2 : CustomerModel) :
    ((create_customer u cp db).1.status = "HOLD" ↔
      (create_customer u cp db).1.hold_since ≠ none) ∧
    (p.status = some s → (s = "ACTIVE" ∨ s = "HOLD" ∨ s = "CLOSED") →
      (s = "HOLD" → ∃ d, p.hold_since = some (some d)) →
      update_customer u cid p db = .ok (c2, db2) →
      (c2.status = "HOLD" ↔ c2.hold_since ≠ none)) := by
  constructor
  · have h1 : (create_customer u cp db).1.status = "ACTIVE" := rfl
    have h2 : (create_customer u cp db).1.hold_since = none := rfl
    rw [h1, h2]
    exact iff_of_false (by decide) (by simp)
  · intro hs hvalid hhold hok
    obtain ⟨c0, _, _, _, hc2, _⟩ := update_ok_inv hok
    have hqs : (if u.role ≠ "admin" then restrictNonAdmin p else p).status = some s := by
      rw [(roleRestrict_keeps u p).2.1, hs]
    have hqh : (if u.role ≠ "admin" then restrictNonAdmin p else p).hold_since =
        p.hold_since := (roleRestrict_keeps u p).2.2
    have hstat : c2.status = s := by
      rw [hc2, applyUpdateData_status, (popAssignedTo_keeps u _).2.2.2.2.2.2.1,
        (applyStatusRule_keeps _).2.2.2.2.2.2.1, hqs]
      rfl
    rcases hvalid with hA | hH | hC
    · have hhold2 := applyStatusRule_hold_ac _ s hqs (Or.inl hA)
      have hch : c2.hold_since = none := by
        rw [hc2, applyUpdateData_hold, (popAssignedTo_keeps u _).2.2.2.2.2.2.2, hhold2]
        rfl
      rw [hstat, hch, hA]
      exact iff_of_false (by decide) (by simp)
    · obtain ⟨d, hd⟩ := hhold hH
      have hnac : ¬(s = "ACTIVE" ∨ s = "CLOSED") := by
        subst hH; decide
      have hhold2 := applyStatusRule_hold_other _ s hqs hnac
      have hch : c2.hold_since = some d := by
        rw [hc2, applyUpdateData_hold, (popAssignedTo_keeps u _).2.2.2.2.2.2.2, hhold2,
          hqh, hd]
        rfl
      rw [hstat, hch, hH]
      exact iff_of_true rfl (by simp)
    · have hhold2 := applyStatusRule_hold_ac _ s hqs (Or.inr hC)
      have hch : c2.hold_since = none := by
        rw [hc2, applyUpdateData_hold, (popAssignedTo_keeps u _).2.2.2.2.2.2.2, hhold2]
        rfl
      rw [hstat, hch, hC]
      exact iff_of_false (by decide) (by simp)

/-- A hold request that does supply a `holdSince`. -/
def holdPayload : CustomerUpdateSchema :=
  { status := some "HOLD", hold_since := some (some 120) }

def c3Post : CustomerModel := { lead1 with status := "HOLD", hold_since := some 120 }

def c3Db2 : List CustomerModel := [c3Post, lead2]

/-- Witness for the amended C3 at a concrete well-formed hold request. -/
theorem c3_witness : c3Post.status = "HOLD" ↔ c3Post.hold_since ≠ none :=
  (c3_hold_invariant empUser { fullname := "X", reg_date := 0, address := "Y" }
      demoDb c3Db2 "ARC001" holdPayload "HOLD" c3Post).2
    rfl (Or.inr (Or.inl rfl)) (fun _ => ⟨120, rfl⟩) rfl

/-! ## Claim C4 — invalid status strings -/

/-- An update request with a status outside `{ACTIVE, HOLD, CLOSED}`. -/
def weirdPayload : CustomerUpdateSchema := { status := some "PENDING" }

/-- C4 evaluated at the failing input: the update schema has no validator
on `status`, so the request succeeds, the arbitrary string is stored
verbatim and the store is mutated — no validation error is reported. -/
theorem c4_invalid_status_is_stored :
    (update_customer empUser "ARC001" weirdPayload demoDb).toOption.map
        (fun r => r.1.status) = some "PENDING" ∧
    (update_customer empUser "ARC001" weirdPayload demoDb).toOption.map
        (fun r => r.2) = some [{ lead1 with status := "PENDING" }, lead2] :=
  ⟨rfl, rfl⟩

/-! ## Claim C6 — the non-admin field allow-list -/

/-- C6: for a non-admin caller the handler behaves exactly as if the
request had contained only the allow-listed fields (everything else is
silently dropped, with no error), so the row's identity fields —
`assignedTo` in particular — are unchanged; an admin caller's
`assigned_to` is applied verbatim. -/
theorem c6_field_allowlist (u : User) (cid : String) (p : CustomerUpdateSchema)
    (db db2 : List CustomerModel) (c2 : CustomerModel) (v : Option Int) :
    (u.role ≠ "admin" →
      update_customer u cid p db = update_customer u cid (restrictNonAdmin p) db) ∧
    (u.role ≠ "admin" → update_customer u cid p db = .ok (c2, db2) →
      ∃ c0, c0 ∈ db ∧ c0.customer_id = cid ∧
        c2.fullname = c0.fullname ∧ c2.reg_date = c0.reg_date ∧
        c2.mobile = c0.mobile ∧ c2.email = c0.email ∧
        c2.address = c0.address ∧ c2.assigned_to = c0.assigned_to) ∧
    (u.role = "admin" → p.assigned_to = some v →
      update_customer u cid p db = .ok (c2, db2) → c2.assigned_to = v) := by
  refine ⟨?_, ?_, ?_⟩
  · intro hrole
    simp [update_customer, hrole, restrictNonAdmin_idem]
  · intro hrole hok
    obtain ⟨c0, hmem, hcid, _, hc2, _⟩ := update_ok_inv hok
    rw [if_pos hrole] at hc2
    have hres : ∀ q : CustomerUpdateSchema,
        q = popAssignedTo u (applyStatusRule (restrictNonAdmin p)) →
        q.fullname = none ∧ q.reg_date = none ∧ q.mobile = none ∧
        q.email = none ∧ q.address = none ∧ q.assigned_to = none := by
      intro q hq
      subst hq
      refine ⟨?_, ?_, ?_, ?_, ?_, ?_⟩
      · rw [(popAssignedTo_keeps u _).1, (applyStatusRule_keeps _).1]; rfl
      · rw [(popAssignedTo_keeps u _).2.1, (applyStatusRule_keeps _).2.1]; rfl
      · rw [(popAssignedTo_keeps u _).2.2.1, (applyStatusRule_keeps _).2.2.1]; rfl
      · rw [(popAssignedTo_keeps u _).2.2.2.1, (applyStatusRule_keeps _).2.2.2.1]; rfl
      · rw [(popAssignedTo_keeps u _).2.2.2.2.1, (applyStatusRule_keeps _).2.2.2.2.1]; rfl
      · exact popAssignedTo_absent u _ ((applyStatusRule_keeps _).2.2.2.2.2.2.2.trans rfl)
    obtain ⟨hf, hr, hm, he, ha, has⟩ := hres _ rfl
    refine ⟨c0, hmem, hcid, ?_, ?_, ?_, ?_, ?_, ?_⟩
    · rw [hc2, applyUpdateData_fullname, hf]; rfl
    · rw [hc2, applyUpdateData_reg_date, hr]; rfl
    · rw [hc2, applyUpdateData_mobile, hm]; rfl
    · rw [hc2, applyUpdateData_email, he]; rfl
    · rw [hc2, applyUpdateData_address, ha]; rfl
    · rw [hc2, applyUpdateData_assigned, has]; rfl
  · intro hrole hassign hok
    obtain ⟨c0, _, _, _, hc2, _⟩ := update_ok_inv hok
    rw [if_neg (by simp [hrole])] at hc2
    rw [hc2, applyUpdateData_assigned, popAssignedTo_admin u _ hrole,
      (applyStatusRule_keeps _).2.2.2.2.2.2.2, hassign]
    rfl

/-- Admin reassignment request. -/
def assignPayload : CustomerUpdateSchema := { assigned_to := some (some 5) }

/-- A request mixing allow-listed and disallowed fields. -/
def mixedPayload : CustomerUpdateSchema :=
  { fullname := some "Hacked Name", status := some "CLOSED",
    assigned_to := some (some 5) }

def c6AdminPost : CustomerModel := { lead1 with assigned_to := some 5 }

def c6AdminDb2 : List CustomerModel := [c6AdminPost, lead2]

/-- Witness for C6: the non-admin request with disallowed fields behaves
as its restriction, and a concrete admin reassignment lands. -/
theorem c6_witness :
    update_customer empUser "ARC001" mixedPayload demoDb =
      update_customer empUser "ARC001" (restrictNonAdmin mixedPayload) demoDb ∧
    c6AdminPost.assigned_to = some 5 :=
  ⟨(c6_field_allowlist empUser "ARC001" mixedPayload demoDb demoDb lead1 none).1
      (by decide),
   (c6_field_allowlist adminUser "ARC001" assignPayload demoDb c6AdminDb2 c6AdminPost
      (some 5)).2.2 rfl rfl rfl⟩

/-! ## Claim C7 — notes are never persisted -/

/-- A notes update request (a serialized `{date, note}` entry). -/
def notesPayload : CustomerUpdateSchema :=
  { notes := some [{ date := 120, note := "called again" }] }

/-- C7 evaluated at the failing input: the `customers` table has no
`notes` column (`models.py` declares only `note : Optional[str]`), so the
claimed append/replace-and-read-back semantics does not exist.  A
non-admin owner's notes update fails with the handler's 500 (the
`AttributeError` from `getattr(customer, "notes")` on the store-loaded
row) and mutates nothing; an admin's notes update succeeds but assigns a
non-mapped transient attribute, so the committed row and the store are
unchanged — a subsequent read can only ever serve the read schema's
default empty notes. -/
theorem c7_notes_never_persisted :
    update_customer empUser "ARC001" notesPayload demoDb =
      .error "500: Failed to update customer: AttributeError" ∧
    (update_customer adminUser "ARC001" notesPayload demoDb).toOption.map
      (fun r => r.1) = some lead1 ∧
    (update_customer adminUser "ARC001" notesPayload demoDb).toOption.map
      (fun r => r.2) = some demoDb :=
  ⟨rfl, rfl, rfl⟩

/-! ## Claim C9 — the report window -/

/-- Closed form of the 30-iteration graph loop. -/
theorem graph_foldl (db : List CustomerModel) (start_day : ADate) :
    ∀ (l : List Nat) (g : GraphData), l.foldl (graphStep db start_day) g =
      { active := { dates_x_axis := g.active.dates_x_axis ++
                      l.map (fun i => start_day + (i : Int))
                    dates_y_axis := g.active.dates_y_axis ++
                      l.map (fun i => countWhere (activeOn (start_day + (i : Int))) db) }
        onHold := { dates_x_axis := g.onHold.dates_x_axis ++
                      l.map (fun i => start_day + (i : Int))
                    dates_y_axis := g.onHold.dates_y_axis ++
                      l.map (fun i => countWhere (onHoldOn (start_day + (i : Int))) db) } } := by
  intro l
  induction l with
  | nil => intro g; simp
  | cons i rest ih =>
    intro g
    rw [List.foldl_cons, ih]
    simp [graphStep, List.append_assoc]

/-- Counterexample for C9: with `today = 0` the report has an entry for
`today` itself but none for `today - 30`, although the claim promises a
count for each of the 30 calendar days preceding today (which reach down
to `today - 30`). -/
theorem c9_counterexample :
    (customers_count_and_graph adminUser 0 []).graph.active.dates_x_axis.contains
      (-30 : Int) = false ∧
    (customers_count_and_graph adminUser 0 []).graph.active.dates_x_axis.contains
      (0 : Int) = true := by
  decide

/-- C9 (amended): the report is a read-only rollup covering exactly the
30-day window `today - 29 … today` (today and the 29 preceding days): for
each day of the window it counts the Leads `ACTIVE` by registration date
and `HOLD` by hold-start date, today's headline counts use the same
predicates, and the store is left unchanged. -/
theorem c9_report_window (u : User) (today : ADate) (db : List CustomerModel) :
    (customers_count_and_graph u today db).graph =
      { active := { dates_x_axis := (List.range 30).map (fun i => today - 29 + (i : Int))
                    dates_y_axis := (List.range 30).map
                      (fun i => countWhere (activeOn (today - 29 + (i : Int))) db) }
        onHold := { dates_x_axis := (List.range 30).map (fun i => today - 29 + (i : Int))
                    dates_y_axis := (List.range 30).map
                      (fun i => countWhere (onHoldOn (today - 29 + (i : Int))) db) } } ∧
    (customers_count_and_graph u today db).total_active_today =
      countWhere (activeOn today) db ∧
    (customers_count_and_graph u today db).total_on_hold_today =
      countWhere (onHoldOn today) db ∧
    (customers_count_and_graph u today db).date = today ∧
    (customers_count_and_graph_route u today db).2 = db := by
  refine ⟨?_, rfl, rfl, rfl, rfl⟩
  show (List.range 30).foldl (graphStep db (today - 29)) ⟨⟨[], []⟩, ⟨[], []⟩⟩ = _
  rw [graph_foldl]
  simp

end Archloom
